import Mathlib

/-!
Verification of the Address Book distance core.

Shallow embedding of the distance computation (`src/utils.py`,
`haversine_distance`) and the radius filter
(`src/main.py`, `get_addresses_within_distance`) over the real numbers,
together with proofs of the specified properties.

Python's floating-point arithmetic is modelled by exact real arithmetic;
`math.radians`, `math.sin`, `math.cos`, `math.sqrt` and `math.atan2`
become their real counterparts.  Python's `raise ValueError(msg)` becomes
an `Except String` result carrying the same message string, and
`math.sqrt` of a negative argument becomes the `"math domain error"`
branch, mirroring the `ValueError` that `math.sqrt` raises in Python.
-/

namespace AddressBook

open Real

/-- Python's `math.radians`: degrees to radians, `x * π / 180`. -/
noncomputable def radians (x : ℝ) : ℝ := x * Real.pi / 180

/-- Python's `math.atan2 y x`: the angle of the point `(x, y)`, by quadrant,
as in the C/Python library function. The source only applies it to
non-negative arguments (the first branch and the `x = 0` branches). -/
noncomputable def atan2 (y x : ℝ) : ℝ :=
  if 0 < x then Real.arctan (y / x)
  else if x < 0 then
    if 0 ≤ y then Real.arctan (y / x) + Real.pi else Real.arctan (y / x) - Real.pi
  else
    if 0 < y then Real.pi / 2 else if y < 0 then -(Real.pi / 2) else 0

/-- The intermediate value `a` of the Haversine formula in
`haversine_distance` (src/utils.py lines 44-51):
`a = sin²(Δlat/2) + cos(radians lat1) · cos(radians lat2) · sin²(Δlon/2)`. -/
noncomputable def hav_a (lat1 lon1 lat2 lon2 : ℝ) : ℝ :=
  Real.sin (radians (lat2 - lat1) / 2) ^ 2 +
    Real.cos (radians lat1) * Real.cos (radians lat2) *
      Real.sin (radians (lon2 - lon1) / 2) ^ 2

/-- The distance value computed by `haversine_distance` after validation
(src/utils.py lines 53-54): `EARTH_RADIUS_KM * (2 * atan2 (√a) (√(1-a)))`. -/
noncomputable def distance_value (lat1 lon1 lat2 lon2 : ℝ) : ℝ :=
  6371 * (2 * atan2 (Real.sqrt (hav_a lat1 lon1 lat2 lon2))
    (Real.sqrt (1 - hav_a lat1 lon1 lat2 lon2)))

/-- Error message raised for an out-of-range latitude
(src/utils.py line 37). -/
def latitudeMsg : String := "Latitude values must be between -90 and 90 degrees"

/-- Error message raised for an out-of-range longitude
(src/utils.py line 41). -/
def longitudeMsg : String := "Longitude values must be between -180 and 180 degrees"

/-- Embedding of `haversine_distance` (src/utils.py lines 14-57):
validate both latitudes, then both longitudes, then compute the
Haversine distance.  The `"math domain error"` branches model Python's
`math.sqrt` raising on a negative argument. -/
noncomputable def haversine_distance (lat1 lon1 lat2 lon2 : ℝ) : Except String ℝ :=
  if ¬(-90 ≤ lat1 ∧ lat1 ≤ 90) ∨ ¬(-90 ≤ lat2 ∧ lat2 ≤ 90) then
    .error latitudeMsg
  else if ¬(-180 ≤ lon1 ∧ lon1 ≤ 180) ∨ ¬(-180 ≤ lon2 ∧ lon2 ≤ 180) then
    .error longitudeMsg
  else if hav_a lat1 lon1 lat2 lon2 < 0 then .error "math domain error"
  else if 1 - hav_a lat1 lon1 lat2 lon2 < 0 then .error "math domain error"
  else .ok (distance_value lat1 lon1 lat2 lon2)

/-- A latitude/longitude pair is in the geographic domain. -/
def ValidCoord (lat lon : ℝ) : Prop :=
  (-90 ≤ lat ∧ lat ≤ 90) ∧ (-180 ≤ lon ∧ lon ≤ 180)

/-- Reference Haversine distance transcribed from the spec's algorithm
(§4.1): with Earth radius R = 6371 km, Δlat = radians(lat2−lat1),
Δlon = radians(lon2−lon1),
a = sin²(Δlat/2) + cos(radians lat1)·cos(radians lat2)·sin²(Δlon/2),
c = 2·atan2(√a, √(1−a)), distance = R·c. -/
noncomputable def spec_distance (lat1 lon1 lat2 lon2 : ℝ) : ℝ :=
  let dlat := radians (lat2 - lat1)
  let dlon := radians (lon2 - lon1)
  let a := Real.sin (dlat / 2) ^ 2 +
    Real.cos (radians lat1) * Real.cos (radians lat2) * Real.sin (dlon / 2) ^ 2
  let c := 2 * atan2 (Real.sqrt a) (Real.sqrt (1 - a))
  6371 * c

/-! ## Basic facts about the intermediate value `a` -/

theorem cos_radians_nonneg {lat : ℝ} (h : -90 ≤ lat ∧ lat ≤ 90) :
    0 ≤ Real.cos (radians lat) := by
  apply Real.cos_nonneg_of_mem_Icc
  constructor
  · unfold radians
    nlinarith [Real.pi_pos, h.1]
  · unfold radians
    nlinarith [Real.pi_pos, h.2]

theorem hav_a_nonneg {lat1 lon1 lat2 lon2 : ℝ}
    (h1 : -90 ≤ lat1 ∧ lat1 ≤ 90) (h2 : -90 ≤ lat2 ∧ lat2 ≤ 90) :
    0 ≤ hav_a lat1 lon1 lat2 lon2 := by
  unfold hav_a
  have c1 := cos_radians_nonneg h1
  have c2 := cos_radians_nonneg h2
  have s1 : (0:ℝ) ≤ Real.sin (radians (lat2 - lat1) / 2) ^ 2 := sq_nonneg _
  have s2 : (0:ℝ) ≤ Real.sin (radians (lon2 - lon1) / 2) ^ 2 := sq_nonneg _
  have := mul_nonneg (mul_nonneg c1 c2) s2
  linarith

theorem hav_a_le_one {lat1 lon1 lat2 lon2 : ℝ}
    (h1 : -90 ≤ lat1 ∧ lat1 ≤ 90) (h2 : -90 ≤ lat2 ∧ lat2 ≤ 90) :
    hav_a lat1 lon1 lat2 lon2 ≤ 1 := by
  unfold hav_a
  have c1 := cos_radians_nonneg h1
  have c2 := cos_radians_nonneg h2
  have hrad : radians (lat2 - lat1) = radians lat2 - radians lat1 := by
    unfold radians; ring
  rw [hrad]
  have hsq : Real.sin ((radians lat2 - radians lat1) / 2) ^ 2 =
      1 / 2 - Real.cos (2 * ((radians lat2 - radians lat1) / 2)) / 2 :=
    Real.sin_sq_eq_half_sub _
  have h2x : 2 * ((radians lat2 - radians lat1) / 2) = radians lat2 - radians lat1 := by
    ring
  rw [h2x] at hsq
  rw [hsq, Real.cos_sub]
  have hsin2 : Real.sin (radians (lon2 - lon1) / 2) ^ 2 ≤ 1 := by
    have := Real.neg_one_le_sin (radians (lon2 - lon1) / 2)
    have := Real.sin_le_one (radians (lon2 - lon1) / 2)
    nlinarith
  have hcosadd : Real.cos (radians lat1 + radians lat2) ≤ 1 := Real.cos_le_one _
  rw [Real.cos_add] at hcosadd
  have hmul : Real.cos (radians lat1) * Real.cos (radians lat2) *
      Real.sin (radians (lon2 - lon1) / 2) ^ 2 ≤
      Real.cos (radians lat1) * Real.cos (radians lat2) :=
    mul_le_of_le_one_right (mul_nonneg c1 c2) hsin2
  linarith

/-- For valid inputs, `haversine_distance` reaches the computation and
returns the distance value. -/
theorem haversine_distance_valid {lat1 lon1 lat2 lon2 : ℝ}
    (h1 : ValidCoord lat1 lon1) (h2 : ValidCoord lat2 lon2) :
    haversine_distance lat1 lon1 lat2 lon2 = .ok (distance_value lat1 lon1 lat2 lon2) := by
  have hLat : ¬(¬(-90 ≤ lat1 ∧ lat1 ≤ 90) ∨ ¬(-90 ≤ lat2 ∧ lat2 ≤ 90)) := by
    push_neg; exact ⟨h1.1, h2.1⟩
  have hLon : ¬(¬(-180 ≤ lon1 ∧ lon1 ≤ 180) ∨ ¬(-180 ≤ lon2 ∧ lon2 ≤ 180)) := by
    push_neg; exact ⟨h1.2, h2.2⟩
  have hA0 : ¬ hav_a lat1 lon1 lat2 lon2 < 0 :=
    not_lt.mpr (hav_a_nonneg h1.1 h2.1)
  have hA1 : ¬ 1 - hav_a lat1 lon1 lat2 lon2 < 0 := by
    have := @hav_a_le_one lat1 lon1 lat2 lon2 h1.1 h2.1
    linarith
  unfold haversine_distance
  rw [if_neg hLat, if_neg hLon, if_neg hA0, if_neg hA1]

/-! ## atan2 on the non-negative quadrant -/

theorem atan2_nonneg {y x : ℝ} (hy : 0 ≤ y) (hx : 0 ≤ x) : 0 ≤ atan2 y x := by
  unfold atan2
  by_cases hpos : 0 < x
  · rw [if_pos hpos]
    rw [← Real.arctan_zero]
    exact Real.arctan_strictMono.monotone (div_nonneg hy hx)
  · rw [if_neg hpos, if_neg (not_lt.mpr hx)]
    by_cases hy0 : 0 < y
    · rw [if_pos hy0]
      linarith [Real.pi_pos]
    · rw [if_neg hy0, if_neg (not_lt.mpr hy)]

theorem atan2_le_pi_div_two {y x : ℝ} (hy : 0 ≤ y) (hx : 0 ≤ x) :
    atan2 y x ≤ Real.pi / 2 := by
  unfold atan2
  by_cases hpos : 0 < x
  · rw [if_pos hpos]
    exact (Real.arctan_lt_pi_div_two _).le
  · rw [if_neg hpos, if_neg (not_lt.mpr hx)]
    by_cases hy0 : 0 < y
    · rw [if_pos hy0]
    · rw [if_neg hy0, if_neg (not_lt.mpr hy)]
      linarith [Real.pi_pos]

theorem atan2_zero_one : atan2 0 1 = 0 := by
  unfold atan2
  rw [if_pos one_pos]
  simp [Real.arctan_zero]

/-! ## The radius filter (src/main.py, `get_addresses_within_distance`) -/

/-- A stored address record (src/models.py): an id, a name and a
coordinate pair. -/
structure Address where
  id : ℤ
  name : String
  latitude : ℝ
  longitude : ℝ

/-- The per-candidate scan loop of `get_addresses_within_distance`
(src/main.py lines 283-295): compute the distance to each address,
append it to the result when the distance is within the radius, and
skip the candidate (continue) when the distance computation fails. -/
noncomputable def scan_addresses (lat lon distance_km : ℝ) :
    List Address → List Address
  | [] => []
  | addr :: rest =>
    match haversine_distance lat lon addr.latitude addr.longitude with
    | .ok dist =>
      if dist ≤ distance_km then addr :: scan_addresses lat lon distance_km rest
      else scan_addresses lat lon distance_km rest
    | .error _ => scan_addresses lat lon distance_km rest

/-- Error messages of the center/radius validation in
`get_addresses_within_distance` (src/main.py lines 268-276). -/
def centerLatMsg : String := "Latitude must be between -90 and 90 degrees"

/-- See `centerLatMsg`. -/
def centerLonMsg : String := "Longitude must be between -180 and 180 degrees"

/-- See `centerLatMsg`. -/
def radiusMsg : String := "Distance must be a positive value"

/-- Embedding of `get_addresses_within_distance` (src/main.py
lines 267-297): validate the center latitude, then the center longitude,
then the radius, then scan all stored addresses. -/
noncomputable def get_addresses_within_distance (lat lon distance_km : ℝ)
    (all_addresses : List Address) : Except String (List Address) :=
  if ¬(-90 ≤ lat ∧ lat ≤ 90) then .error centerLatMsg
  else if ¬(-180 ≤ lon ∧ lon ≤ 180) then .error centerLonMsg
  else if distance_km ≤ 0 then .error radiusMsg
  else .ok (scan_addresses lat lon distance_km all_addresses)

/-- For a valid center and a positive radius, the filter reaches the scan. -/
theorem get_addresses_valid {lat lon distance_km : ℝ}
    (hc : ValidCoord lat lon) (hr : 0 < distance_km) (addrs : List Address) :
    get_addresses_within_distance lat lon distance_km addrs =
      .ok (scan_addresses lat lon distance_km addrs) := by
  unfold get_addresses_within_distance
  rw [if_neg (not_not_intro hc.1), if_neg (not_not_intro hc.2),
    if_neg (not_le.mpr hr)]

/-! ## Helper lemmas shared by several claims -/

theorem haversine_error_of_bad_lat {lat1 lon1 lat2 lon2 : ℝ}
    (hlat : ¬(-90 ≤ lat1 ∧ lat1 ≤ 90) ∨ ¬(-90 ≤ lat2 ∧ lat2 ≤ 90)) :
    haversine_distance lat1 lon1 lat2 lon2 = .error latitudeMsg := by
  unfold haversine_distance
  rw [if_pos hlat]

theorem haversine_error_of_bad_lon {lat1 lon1 lat2 lon2 : ℝ}
    (hlat1 : -90 ≤ lat1 ∧ lat1 ≤ 90) (hlat2 : -90 ≤ lat2 ∧ lat2 ≤ 90)
    (hlon : ¬(-180 ≤ lon1 ∧ lon1 ≤ 180) ∨ ¬(-180 ≤ lon2 ∧ lon2 ≤ 180)) :
    haversine_distance lat1 lon1 lat2 lon2 = .error longitudeMsg := by
  unfold haversine_distance
  rw [if_neg (by push_neg; exact ⟨hlat1, hlat2⟩), if_pos hlon]

theorem hav_a_comm (lat1 lon1 lat2 lon2 : ℝ) :
    hav_a lat1 lon1 lat2 lon2 = hav_a lat2 lon2 lat1 lon1 := by
  unfold hav_a
  have e1 : radians (lat1 - lat2) = -radians (lat2 - lat1) := by
    unfold radians; ring
  have e2 : radians (lon1 - lon2) = -radians (lon2 - lon1) := by
    unfold radians; ring
  rw [e1, e2, neg_div, neg_div, Real.sin_neg, Real.sin_neg]
  ring

theorem distance_value_comm (lat1 lon1 lat2 lon2 : ℝ) :
    distance_value lat1 lon1 lat2 lon2 = distance_value lat2 lon2 lat1 lon1 := by
  unfold distance_value
  rw [hav_a_comm]

theorem distance_value_nonneg (lat1 lon1 lat2 lon2 : ℝ) :
    0 ≤ distance_value lat1 lon1 lat2 lon2 := by
  unfold distance_value
  have h := atan2_nonneg (Real.sqrt_nonneg (hav_a lat1 lon1 lat2 lon2))
    (Real.sqrt_nonneg (1 - hav_a lat1 lon1 lat2 lon2))
  linarith

theorem distance_value_le (lat1 lon1 lat2 lon2 : ℝ) :
    distance_value lat1 lon1 lat2 lon2 ≤ Real.pi * 6371 := by
  unfold distance_value
  have h := atan2_le_pi_div_two (Real.sqrt_nonneg (hav_a lat1 lon1 lat2 lon2))
    (Real.sqrt_nonneg (1 - hav_a lat1 lon1 lat2 lon2))
  linarith

/-! ## The claims -/

/-- C1: for every pair of coordinate pairs with both latitudes in
[-90, 90] and both longitudes in [-180, 180], `haversine_distance`
returns exactly `R·c` with `R = 6371`, `c = 2·atan2(√a, √(1−a))` and
`a` the Haversine intermediate value — i.e. the implementation equals
the spec's reference Haversine definition (`spec_distance`). -/
theorem haversine_matches_spec_reference {lat1 lon1 lat2 lon2 : ℝ}
    (h1 : ValidCoord lat1 lon1) (h2 : ValidCoord lat2 lon2) :
    haversine_distance lat1 lon1 lat2 lon2 =
      .ok (spec_distance lat1 lon1 lat2 lon2) := by
  rw [haversine_distance_valid h1 h2]
  unfold distance_value spec_distance hav_a
  rfl

/-- Witness for C1 at the concrete points (12.9716, 77.5946) and
(12.2958, 76.6394). -/
theorem haversine_matches_spec_reference_witness :
    haversine_distance 12.9716 77.5946 12.2958 76.6394 =
      .ok (spec_distance 12.9716 77.5946 12.2958 76.6394) :=
  haversine_matches_spec_reference
    ⟨⟨by norm_num, by norm_num⟩, by norm_num, by norm_num⟩
    ⟨⟨by norm_num, by norm_num⟩, by norm_num, by norm_num⟩

/-- C4: for every input with some latitude outside [-90, 90] or some
longitude outside [-180, 180], `haversine_distance` fails with a
coordinate-validation error before any trigonometric computation (the
error branch returns without touching the Haversine terms), and the
error message names which kind of value (latitude or longitude) and
which bound was violated. -/
theorem haversine_invalid_coordinate_error (lat1 lon1 lat2 lon2 : ℝ)
    (h : (¬(-90 ≤ lat1 ∧ lat1 ≤ 90) ∨ ¬(-90 ≤ lat2 ∧ lat2 ≤ 90)) ∨
      (¬(-180 ≤ lon1 ∧ lon1 ≤ 180) ∨ ¬(-180 ≤ lon2 ∧ lon2 ≤ 180))) :
    (haversine_distance lat1 lon1 lat2 lon2 = .error latitudeMsg ∧
      (¬(-90 ≤ lat1 ∧ lat1 ≤ 90) ∨ ¬(-90 ≤ lat2 ∧ lat2 ≤ 90))) ∨
    (haversine_distance lat1 lon1 lat2 lon2 = .error longitudeMsg ∧
      (¬(-180 ≤ lon1 ∧ lon1 ≤ 180) ∨ ¬(-180 ≤ lon2 ∧ lon2 ≤ 180))) := by
  by_cases hlat : ¬(-90 ≤ lat1 ∧ lat1 ≤ 90) ∨ ¬(-90 ≤ lat2 ∧ lat2 ≤ 90)
  · exact Or.inl ⟨haversine_error_of_bad_lat hlat, hlat⟩
  · push_neg at hlat
    have hlon : ¬(-180 ≤ lon1 ∧ lon1 ≤ 180) ∨ ¬(-180 ≤ lon2 ∧ lon2 ≤ 180) := by
      rcases h with hl | hl
      · exact absurd hl (by push_neg; exact hlat)
      · exact hl
    exact Or.inr ⟨haversine_error_of_bad_lon hlat.1 hlat.2 hlon, hlon⟩

/-- Witness for C4 at the concrete invalid input (100, 77.5, 12.9, 77.5). -/
theorem haversine_invalid_coordinate_error_witness :
    (haversine_distance 100 77.5 12.9 77.5 = .error latitudeMsg ∧
      (¬((-90:ℝ) ≤ 100 ∧ (100:ℝ) ≤ 90) ∨ ¬((-90:ℝ) ≤ 12.9 ∧ (12.9:ℝ) ≤ 90))) ∨
    (haversine_distance 100 77.5 12.9 77.5 = .error longitudeMsg ∧
      (¬((-180:ℝ) ≤ 77.5 ∧ (77.5:ℝ) ≤ 180) ∨ ¬((-180:ℝ) ≤ 77.5 ∧ (77.5:ℝ) ≤ 180))) :=
  haversine_invalid_coordinate_error 100 77.5 12.9 77.5 (by norm_num)

/-- C10: latitude validation takes precedence over longitude validation:
when both a latitude and a longitude are out of range, the error raised
is the latitude error. -/
theorem haversine_latitude_checked_first (lat1 lon1 lat2 lon2 : ℝ)
    (hlat : ¬(-90 ≤ lat1 ∧ lat1 ≤ 90) ∨ ¬(-90 ≤ lat2 ∧ lat2 ≤ 90))
    (_hlon : ¬(-180 ≤ lon1 ∧ lon1 ≤ 180) ∨ ¬(-180 ≤ lon2 ∧ lon2 ≤ 180)) :
    haversine_distance lat1 lon1 lat2 lon2 = .error latitudeMsg :=
  haversine_error_of_bad_lat hlat

/-- Witness for C10 at (100, 500, 0, 0): both the latitude 100 and the
longitude 500 are out of range, and the latitude error is raised. -/
theorem haversine_latitude_checked_first_witness :
    haversine_distance 100 500 0 0 = .error latitudeMsg :=
  haversine_latitude_checked_first 100 500 0 0 (by norm_num) (by norm_num)

/-- C6: `haversine_distance` is symmetric on valid inputs:
`distance(A, B) = distance(B, A)`. -/
theorem haversine_symm {lat1 lon1 lat2 lon2 : ℝ}
    (h1 : ValidCoord lat1 lon1) (h2 : ValidCoord lat2 lon2) :
    haversine_distance lat1 lon1 lat2 lon2 =
      haversine_distance lat2 lon2 lat1 lon1 := by
  rw [haversine_distance_valid h1 h2, haversine_distance_valid h2 h1,
    distance_value_comm]

/-- Witness for C6 at the concrete points (12.9716, 77.5946) and
(12.2958, 76.6394). -/
theorem haversine_symm_witness :
    haversine_distance 12.9716 77.5946 12.2958 76.6394 =
      haversine_distance 12.2958 76.6394 12.9716 77.5946 :=
  haversine_symm
    ⟨⟨by norm_num, by norm_num⟩, by norm_num, by norm_num⟩
    ⟨⟨by norm_num, by norm_num⟩, by norm_num, by norm_num⟩

/-- C7: for every valid coordinate pair P, the distance from P to
itself is exactly zero (in particular within the 1e-4 km tolerance). -/
theorem haversine_self_eq_zero {lat lon : ℝ} (h : ValidCoord lat lon) :
    haversine_distance lat lon lat lon = .ok 0 := by
  rw [haversine_distance_valid h h]
  have ha : hav_a lat lon lat lon = 0 := by
    simp [hav_a, radians]
  unfold distance_value
  rw [ha]
  rw [Real.sqrt_zero, sub_zero, Real.sqrt_one, atan2_zero_one]
  norm_num

/-- Witness for C7 at the concrete point (12.9716, 77.5946). -/
theorem haversine_self_eq_zero_witness :
    haversine_distance 12.9716 77.5946 12.9716 77.5946 = .ok 0 :=
  haversine_self_eq_zero ⟨⟨by norm_num, by norm_num⟩, by norm_num, by norm_num⟩

/-- C8: on valid inputs the distance result is non-negative and never
exceeds the sphere's half-circumference π · 6371 km. -/
theorem haversine_bounded {lat1 lon1 lat2 lon2 : ℝ}
    (h1 : ValidCoord lat1 lon1) (h2 : ValidCoord lat2 lon2) :
    haversine_distance lat1 lon1 lat2 lon2 =
        .ok (distance_value lat1 lon1 lat2 lon2) ∧
      0 ≤ distance_value lat1 lon1 lat2 lon2 ∧
      distance_value lat1 lon1 lat2 lon2 ≤ Real.pi * 6371 :=
  ⟨haversine_distance_valid h1 h2, distance_value_nonneg lat1 lon1 lat2 lon2,
    distance_value_le lat1 lon1 lat2 lon2⟩

/-- Witness for C8 at the concrete points (12.9716, 77.5946) and
(12.2958, 76.6394). -/
theorem haversine_bounded_witness :
    haversine_distance 12.9716 77.5946 12.2958 76.6394 =
        .ok (distance_value 12.9716 77.5946 12.2958 76.6394) ∧
      0 ≤ distance_value 12.9716 77.5946 12.2958 76.6394 ∧
      distance_value 12.9716 77.5946 12.2958 76.6394 ≤ Real.pi * 6371 :=
  haversine_bounded
    ⟨⟨by norm_num, by norm_num⟩, by norm_num, by norm_num⟩
    ⟨⟨by norm_num, by norm_num⟩, by norm_num, by norm_num⟩

/-- C9: under the validated precondition the intermediate value `a`
satisfies 0 ≤ a ≤ 1 — so both square roots are taken of non-negative
arguments and Python's `math.sqrt` domain-error branch is unreachable —
and `haversine_distance` succeeds with the computed value. -/
theorem haversine_no_domain_error {lat1 lon1 lat2 lon2 : ℝ}
    (h1 : ValidCoord lat1 lon1) (h2 : ValidCoord lat2 lon2) :
    0 ≤ hav_a lat1 lon1 lat2 lon2 ∧ hav_a lat1 lon1 lat2 lon2 ≤ 1 ∧
      haversine_distance lat1 lon1 lat2 lon2 =
        .ok (distance_value lat1 lon1 lat2 lon2) :=
  ⟨hav_a_nonneg h1.1 h2.1, hav_a_le_one h1.1 h2.1,
    haversine_distance_valid h1 h2⟩

/-- Witness for C9 at the concrete points (12.9716, 77.5946) and
(12.2958, 76.6394). -/
theorem haversine_no_domain_error_witness :
    0 ≤ hav_a 12.9716 77.5946 12.2958 76.6394 ∧
      hav_a 12.9716 77.5946 12.2958 76.6394 ≤ 1 ∧
      haversine_distance 12.9716 77.5946 12.2958 76.6394 =
        .ok (distance_value 12.9716 77.5946 12.2958 76.6394) :=
  haversine_no_domain_error
    ⟨⟨by norm_num, by norm_num⟩, by norm_num, by norm_num⟩
    ⟨⟨by norm_num, by norm_num⟩, by norm_num, by norm_num⟩

/-! ## Radius-filter claims -/

/-- One scan step on a candidate whose distance computes successfully. -/
theorem scan_addresses_cons_ok {lat lon r dist : ℝ} {a : Address}
    (h : haversine_distance lat lon a.latitude a.longitude = .ok dist)
    (rest : List Address) :
    scan_addresses lat lon r (a :: rest) =
      if dist ≤ r then a :: scan_addresses lat lon r rest
      else scan_addresses lat lon r rest := by
  simp only [scan_addresses]
  rw [h]

/-- One scan step on a candidate whose distance computation fails. -/
theorem scan_addresses_cons_error {lat lon r : ℝ} {a : Address} {e : String}
    (h : haversine_distance lat lon a.latitude a.longitude = .error e)
    (rest : List Address) :
    scan_addresses lat lon r (a :: rest) = scan_addresses lat lon r rest := by
  simp only [scan_addresses]
  rw [h]

/-- The stable filter described by the spec: the sublist of candidates
whose distance from the center is at most the radius, in input order. -/
noncomputable def ref_filter (lat lon r : ℝ) (addrs : List Address) : List Address :=
  addrs.filter fun a => decide (distance_value lat lon a.latitude a.longitude ≤ r)

theorem scan_eq_ref_filter {lat lon r : ℝ} (hc : ValidCoord lat lon)
    (addrs : List Address)
    (hall : ∀ a ∈ addrs, ValidCoord a.latitude a.longitude) :
    scan_addresses lat lon r addrs = ref_filter lat lon r addrs := by
  induction addrs with
  | nil => rfl
  | cons a rest ih =>
    have ha : ValidCoord a.latitude a.longitude := hall a (List.mem_cons_self a rest)
    have hrest : ∀ b ∈ rest, ValidCoord b.latitude b.longitude :=
      fun b hb => hall b (List.mem_cons_of_mem a hb)
    rw [scan_addresses_cons_ok (haversine_distance_valid hc ha) rest]
    unfold ref_filter
    rw [List.filter_cons]
    by_cases hle : distance_value lat lon a.latitude a.longitude ≤ r
    · rw [if_pos hle, if_pos (by simpa using hle)]
      rw [ih hrest]
      rfl
    · rw [if_neg hle, if_neg (by simpa using hle)]
      rw [ih hrest]
      rfl

/-- C2: for every valid center, positive radius and candidate list with
in-domain coordinates, the radius filter succeeds and returns exactly
the stable filter of the candidates by `distance ≤ radius` — a
subsequence of the input preserving its relative order, with candidates
at distance exactly the radius included (the comparison is `≤`). -/
theorem get_addresses_is_stable_filter {lat lon r : ℝ} (hc : ValidCoord lat lon)
    (hr : 0 < r) (addrs : List Address)
    (hall : ∀ a ∈ addrs, ValidCoord a.latitude a.longitude) :
    get_addresses_within_distance lat lon r addrs =
        .ok (ref_filter lat lon r addrs) ∧
      (ref_filter lat lon r addrs).Sublist addrs ∧
      ∀ a ∈ addrs, (a ∈ ref_filter lat lon r addrs ↔
        distance_value lat lon a.latitude a.longitude ≤ r) := by
  refine ⟨?_, List.filter_sublist addrs, ?_⟩
  · rw [get_addresses_valid hc hr addrs, scan_eq_ref_filter hc addrs hall]
  · intro a hmem
    unfold ref_filter
    rw [List.mem_filter]
    simp [hmem]

/-- Witness for C2: center (40.7128, -74.0060), radius 10, candidates
Home (at the center) and Far (London); the filter keeps exactly the
candidates within 10 km. -/
theorem get_addresses_is_stable_filter_witness :
    get_addresses_within_distance 40.7128 (-74.0060) 10
        [⟨1, "Home", 40.7128, -74.0060⟩, ⟨2, "Far", 51.5074, -0.1278⟩] =
        .ok (ref_filter 40.7128 (-74.0060) 10
          [⟨1, "Home", 40.7128, -74.0060⟩, ⟨2, "Far", 51.5074, -0.1278⟩]) ∧
      (ref_filter 40.7128 (-74.0060) 10
        [⟨1, "Home", 40.7128, -74.0060⟩, ⟨2, "Far", 51.5074, -0.1278⟩]).Sublist
        [⟨1, "Home", 40.7128, -74.0060⟩, ⟨2, "Far", 51.5074, -0.1278⟩] ∧
      ∀ a ∈ [(⟨1, "Home", 40.7128, -74.0060⟩ : Address),
          ⟨2, "Far", 51.5074, -0.1278⟩],
        (a ∈ ref_filter 40.7128 (-74.0060) 10
            [⟨1, "Home", 40.7128, -74.0060⟩, ⟨2, "Far", 51.5074, -0.1278⟩] ↔
          distance_value 40.7128 (-74.0060) a.latitude a.longitude ≤ 10) :=
  get_addresses_is_stable_filter
    ⟨⟨by norm_num, by norm_num⟩, by norm_num, by norm_num⟩ (by norm_num) _
    (by
      intro a ha
      fin_cases ha <;>
        exact ⟨⟨by norm_num, by norm_num⟩, by norm_num, by norm_num⟩)

/-- Skipping a failing candidate leaves the scan of the rest unchanged. -/
theorem scan_addresses_skip {lat lon r : ℝ} {bad : Address} {e : String}
    (hbad : haversine_distance lat lon bad.latitude bad.longitude = .error e)
    (l1 l2 : List Address) :
    scan_addresses lat lon r (l1 ++ bad :: l2) =
      scan_addresses lat lon r (l1 ++ l2) := by
  induction l1 with
  | nil =>
    rw [List.nil_append, List.nil_append, scan_addresses_cons_error hbad l2]
  | cons a l1 ih =>
    rw [List.cons_append, List.cons_append]
    cases hval : haversine_distance lat lon a.latitude a.longitude with
    | ok dist =>
      rw [scan_addresses_cons_ok hval, scan_addresses_cons_ok hval]
      by_cases hle : dist ≤ r
      · rw [if_pos hle, if_pos hle, ih]
      · rw [if_neg hle, if_neg hle, ih]
    | error e2 =>
      rw [scan_addresses_cons_error hval, scan_addresses_cons_error hval, ih]

/-- C3: for a valid center and positive radius, a candidate whose
distance computation fails is skipped — the call still succeeds and the
result is exactly the result for the list without the failing
candidate. -/
theorem get_addresses_skips_failing_candidate {lat lon r : ℝ}
    (hc : ValidCoord lat lon) (hr : 0 < r) {bad : Address} {e : String}
    (hbad : haversine_distance lat lon bad.latitude bad.longitude = .error e)
    (l1 l2 : List Address) :
    get_addresses_within_distance lat lon r (l1 ++ bad :: l2) =
        get_addresses_within_distance lat lon r (l1 ++ l2) ∧
      get_addresses_within_distance lat lon r (l1 ++ bad :: l2) =
        .ok (scan_addresses lat lon r (l1 ++ l2)) := by
  rw [get_addresses_valid hc hr, get_addresses_valid hc hr,
    scan_addresses_skip hbad l1 l2]
  exact ⟨rfl, rfl⟩

/-- Witness for C3: center (0, 0), radius 1, a malformed candidate with
latitude 100 between two valid candidates. -/
theorem get_addresses_skips_failing_candidate_witness :
    get_addresses_within_distance 0 0 1
        [⟨1, "A", 0, 0⟩, ⟨2, "bad", 100, 0⟩, ⟨3, "B", 50, 50⟩] =
        get_addresses_within_distance 0 0 1 [⟨1, "A", 0, 0⟩, ⟨3, "B", 50, 50⟩] ∧
      get_addresses_within_distance 0 0 1
        [⟨1, "A", 0, 0⟩, ⟨2, "bad", 100, 0⟩, ⟨3, "B", 50, 50⟩] =
        .ok (scan_addresses 0 0 1 [⟨1, "A", 0, 0⟩, ⟨3, "B", 50, 50⟩]) :=
  get_addresses_skips_failing_candidate
    ⟨⟨by norm_num, by norm_num⟩, by norm_num, by norm_num⟩ (by norm_num)
    (haversine_error_of_bad_lat (Or.inr (by norm_num)))
    [⟨1, "A", 0, 0⟩] [⟨3, "B", 50, 50⟩]

/-- C5: with a valid center, a non-positive radius fails with the
invalid-radius error for every candidate list; and an out-of-domain
center latitude or longitude fails with the corresponding coordinate
error for every candidate list and every radius — in both cases before
any candidate is examined. -/
theorem get_addresses_fail_fast (lat lon r : ℝ) (addrs : List Address) :
    (ValidCoord lat lon → r ≤ 0 →
      get_addresses_within_distance lat lon r addrs = .error radiusMsg) ∧
    (¬(-90 ≤ lat ∧ lat ≤ 90) →
      get_addresses_within_distance lat lon r addrs = .error centerLatMsg) ∧
    ((-90 ≤ lat ∧ lat ≤ 90) → ¬(-180 ≤ lon ∧ lon ≤ 180) →
      get_addresses_within_distance lat lon r addrs = .error centerLonMsg) := by
  refine ⟨?_, ?_, ?_⟩
  · intro hc hr
    unfold get_addresses_within_distance
    rw [if_neg (not_not_intro hc.1), if_neg (not_not_intro hc.2), if_pos hr]
  · intro hlat
    unfold get_addresses_within_distance
    rw [if_pos hlat]
  · intro hlat hlon
    unfold get_addresses_within_distance
    rw [if_neg (not_not_intro hlat), if_pos hlon]

/-- Witness for C5: radius −5 with a valid center fails with the
invalid-radius error on the empty candidate list. -/
theorem get_addresses_fail_fast_witness :
    get_addresses_within_distance 40.7128 (-74.0060) (-5) [] = .error radiusMsg :=
  (get_addresses_fail_fast 40.7128 (-74.0060) (-5) []).1
    ⟨⟨by norm_num, by norm_num⟩, by norm_num, by norm_num⟩ (by norm_num)

end AddressBook
